import Mathlib

/-!
Verification development for the VoroScope scanning system.

The definitions below are shallow embeddings of the Python sources:
  - `Integrated Scanning Interface/scanner.py` (`run_scan`)
  - `Integrated Scanning Interface/hardware.py` (`PrinterInterface.move_to`)
  - `Integrated Scanning Interface/app.py` (`generate_frames`, `start_scan`,
    `z_dry_run`, `updateScanGrid`)
  - `Scanning Scripts/burst.py` (`perform_burst_capture_ram`,
    `background_writer`, `main`)

Machine floats are modelled by `ℚ`; Python `math.ceil` by `Int.ceil`;
fallible steps by `Except`; the concurrent parts (camera lock plus flags in
`app.py`, and the capture/writer pair in `burst.py`) by explicit labelled
transition systems with inductive reachability predicates.
-/

namespace VoroScope

/-- Scan configuration record, the numeric fields of the JSON config loaded
by `run_scan` (scanner.py lines 11-25).  All numbers are floats in Python,
modelled as `ℚ`. -/
structure ScanCfg where
  startX : ℚ
  endX : ℚ
  startY : ℚ
  endY : ℚ
  stepX : ℚ
  stepY : ℚ
  startZ : ℚ
  endZ : ℚ
  frames : ℚ
  rate : ℚ
deriving Repr, DecidableEq

/-- Step count per axis, scanner.py lines 66-67:
`steps = max(1, math.ceil(abs(width) / step_size_abs))`.
Python `math.ceil` returns an `int`, hence the result is `ℤ`. -/
def stepsOf (a b st : ℚ) : ℤ :=
  max 1 ⌈|b - a| / |st|⌉

/-- Z sweep speed, scanner.py lines 74-77:
`z_speed = (z_dist / duration) * 60 if duration > 0 else 1000`
with `z_dist = abs(end_z - start_z)` and `duration = frames / framerate`.
The same computation appears in `z_dry_run` (app.py lines 260-268). -/
def zSpeed (startZ endZ frames rate : ℚ) : ℚ :=
  let dist := |endZ - startZ|
  let dur := frames / rate
  if 0 < dur then (dist / dur) * 60 else 1000

/-- The two errors raised by `run_scan` before the `try` block that issues
motion: the explicit `ValueError` on a zero step size (line 63), and the
`ZeroDivisionError` Python raises at `stack_frames / framerate` (line 76)
when the framerate is zero. -/
inductive PlanError where
  | zeroStep
  | zeroDivision
deriving Repr, DecidableEq

/-- The grid plan computed by `run_scan` before any motion command
(scanner.py lines 55-77). -/
structure Plan where
  stepsX : ℤ
  stepsY : ℤ
  sweep : ℚ
deriving Repr, DecidableEq

/-- Planning phase of `run_scan` (scanner.py lines 55-77).  It fails on a
zero step size (explicit `raise ValueError`) and on a zero framerate
(Python `ZeroDivisionError` in `stack_frames / framerate`); every other
configuration produces a plan.  No motion command has been issued yet at
this point of `run_scan`. -/
def plan (c : ScanCfg) : Except PlanError Plan :=
  if |c.stepX| = 0 ∨ |c.stepY| = 0 then
    .error .zeroStep
  else if c.rate = 0 then
    .error .zeroDivision
  else
    .ok { stepsX := stepsOf c.startX c.endX c.stepX
          stepsY := stepsOf c.startY c.endY c.stepY
          sweep := zSpeed c.startZ c.endZ c.frames c.rate }

/-- Signed X step, scanner.py line 70:
`x_step_size = step_size_x_abs * (1 if width_mm >= 0 else -1)`. -/
def xStepSigned (c : ScanCfg) : ℚ :=
  |c.stepX| * (if 0 ≤ c.endX - c.startX then 1 else -1)

/-- Signed Y step, scanner.py line 71. -/
def yStepSigned (c : ScanCfg) : ℚ :=
  |c.stepY| * (if 0 ≤ c.endY - c.startY then 1 else -1)

/-- Column visitation order for row `yi`, scanner.py line 89:
`x_range = range(steps_x) if yi % 2 == 0 else reversed(range(steps_x))`.
The same pattern appears in vid_scan_mp4.py lines 219-220. -/
def zigzagCols (yi n : ℕ) : List ℕ :=
  if yi % 2 = 0 then List.range n else (List.range n).reverse

/-- Ordered list of (row, column) grid indices visited by the nested loops
of `run_scan` (scanner.py lines 85-91). -/
def gridPoints (sY sX : ℕ) : List (ℕ × ℕ) :=
  (List.range sY).flatMap fun yi => (zigzagCols yi sX).map fun xi => (yi, xi)

/-- Observable events of a scan run: motion commands with the boolean
result returned by `PrinterInterface.move_to` (hardware.py lines 33-44,
which catches request failures and returns `False`), camera recording
start/stop, and the camera shutdown of the `finally` block. -/
inductive Ev where
  | moveXY (x y : ℚ) (ok : Bool)
  | moveZ (z speed : ℚ) (ok : Bool)
  | startRec (yi xi : ℕ)
  | stopRec
  | camStop
  | camClose
deriving Repr, DecidableEq

/-- Per-point body of the scan loop (scanner.py lines 91-114): XY move,
Z move to stack start, start recording, blocking Z sweep at the computed
speed, stop recording, Z return.  `o` is the oracle of `move_to` results;
`k` the index of the next move.  Note that the code never inspects the
returned booleans: the loop body is the same whatever the oracle says. -/
def pointTrace (c : ScanCfg) (p : Plan) (o : ℕ → Bool) (yi xi k : ℕ) : List Ev :=
  [ .moveXY (c.startX + xi * xStepSigned c) (c.startY + yi * yStepSigned c) (o k),
    .moveZ c.startZ 1000 (o (k + 1)),
    .startRec yi xi,
    .moveZ c.endZ p.sweep (o (k + 2)),
    .stopRec,
    .moveZ c.startZ 1000 (o (k + 3)) ]

/-- Trace of a list of grid points, threading the move-result counter
(four `move_to` calls per point). -/
def pointsTrace (c : ScanCfg) (p : Plan) (o : ℕ → Bool) :
    List (ℕ × ℕ) → ℕ → List Ev
  | [], _ => []
  | (yi, xi) :: rest, k =>
      pointTrace c p o yi xi k ++ pointsTrace c p o rest (k + 4)

/-- Full event trace of the `try`/`finally` body of `run_scan`
(scanner.py lines 81-119): initial lift to `start_z + 2`, the grid loop,
then the `finally` block (camera stop/close and lift to `start_z + 5`). -/
def scanTrace (c : ScanCfg) (p : Plan) (o : ℕ → Bool) : List Ev :=
  .moveZ (c.startZ + 2) 1000 (o 0) ::
    pointsTrace c p o (gridPoints p.stepsY.toNat p.stepsX.toNat) 1 ++
      [.camStop, .camClose, .moveZ (c.startZ + 5) 5000 (o (1 + 4 * p.stepsY.toNat * p.stepsX.toNat))]

/-- The whole of `run_scan`: motion events occur only when planning
succeeded. -/
def runScan (c : ScanCfg) (o : ℕ → Bool) : Except PlanError (List Ev) :=
  (plan c).map fun p => scanTrace c p o

/-- Grid points whose recording was started, in order of occurrence. -/
def recPoints (tr : List Ev) : List (ℕ × ℕ) :=
  tr.filterMap fun e =>
    match e with
    | .startRec yi xi => some (yi, xi)
    | _ => none

/-! ### The app process: camera lock, streaming flag, scan subprocess

State observable in `app.py`: the `threading.Lock` named `camera_lock`, the
global boolean `streaming_active`, whether the scan subprocess spawned by
`start_scan` is alive, and which of the two paths currently has the camera
hardware open.  The scanner subprocess runs `scanner.py` in a separate
process; it shares no Python object with the app, in particular it never
touches `camera_lock`. -/

structure AppState where
  lockHeld : Bool
  streaming : Bool
  scanAlive : Bool
  previewCam : Bool
  scanCam : Bool
deriving Repr, DecidableEq

/-- Initial state at app start (app.py lines 20-24): lock free, flag false,
no scan subprocess, no camera open anywhere. -/
def appInit : AppState :=
  { lockHeld := false, streaming := false, scanAlive := false
    previewCam := false, scanCam := false }

/-- Result of the `/api/scan/start` route (app.py lines 227-242). -/
inductive StartResp where
  | busyStream
  | busyScan
  | started
deriving Repr, DecidableEq

/-- The two guards of `start_scan` (app.py lines 231-235): reject when
`streaming_active` is set, then when the previous scan subprocess is still
alive; otherwise spawn `scanner.py`.  Neither guard consults
`camera_lock`. -/
def startScanResp (s : AppState) : StartResp :=
  if s.streaming then .busyStream
  else if s.scanAlive then .busyScan
  else .started

/-- Interleaved steps of the live-preview generator, the `start_scan`
route, and the scanner subprocess, each modelled from its code:
* `previewAcquire`: `camera_lock.acquire(blocking=False)` succeeds exactly
  when the lock is free (app.py line 49); on failure the generator returns.
* `previewOpen`: the generator creates and starts the camera, then sets
  `streaming_active = True` (app.py lines 56-70); it runs strictly after a
  successful acquire.
* `previewExit`: the `finally` block stops and closes the camera, clears
  the flag and releases the lock (app.py lines 99-109).
* `appStartScan`: the route spawns the subprocess when `startScanResp`
  answers `started` (app.py lines 231-241).
* `scanOpenCam`: the scanner subprocess opens the camera
  (scanner.py lines 34-41) — it performs no lock check of any kind.
* `scanExit`: the subprocess terminates, closing its camera
  (scanner.py lines 116-120). -/
inductive AppStep : AppState → AppState → Prop
  | previewAcquire (s : AppState) :
      s.lockHeld = false →
      AppStep s { s with lockHeld := true }
  | previewOpen (s : AppState) :
      s.lockHeld = true → s.previewCam = false →
      AppStep s { s with previewCam := true, streaming := true }
  | previewExit (s : AppState) :
      s.previewCam = true →
      AppStep s { s with previewCam := false, streaming := false, lockHeld := false }
  | appStartScan (s : AppState) :
      startScanResp s = .started →
      AppStep s { s with scanAlive := true }
  | scanOpenCam (s : AppState) :
      s.scanAlive = true →
      AppStep s { s with scanCam := true }
  | scanExit (s : AppState) :
      AppStep s { s with scanCam := false, scanAlive := false }

/-- States reachable from the app's initial state. -/
inductive AppReach : AppState → Prop
  | refl : AppReach appInit
  | tail {s t : AppState} : AppReach s → AppStep s t → AppReach t

/-! ### The burst capture-to-disk pipeline (burst.py)

Producer side: `perform_burst_capture_ram` first spins in
`while write_queue.qsize() > 0: sleep(0.1)` (lines 164-166), then captures
the burst, and `main` then calls `write_queue.put(...)` (line 266).
Consumer side: `background_writer` pops one task with `write_queue.get()`
(line 51) — which removes it from the queue — writes all frames, and loops.
`queued` counts batches put but not yet taken by `get`; `writing` is true
between a `get` and the completion of its batch. -/

inductive ProducerPhase where
  | atWait
  | capturing
deriving Repr, DecidableEq

structure OffState where
  queued : ℕ
  writing : Bool
  phase : ProducerPhase
deriving Repr, DecidableEq

/-- Pipeline state at the start of `main`: empty queue, idle writer,
producer about to check the queue for its first point. -/
def offInit : OffState :=
  { queued := 0, writing := false, phase := .atWait }

/-- Interleaved steps of the capture loop and the writer thread:
* `passWait`: the spin loop of `perform_burst_capture_ram` exits only when
  `write_queue.qsize()` is `0` (burst.py lines 164-166), after which the
  burst is captured into RAM.
* `submit`: `main` puts the captured batch on the queue — unconditionally,
  `queue.Queue` is unbounded — and immediately proceeds to the next point's
  wait (burst.py lines 262-268).
* `take`: the idle writer pops a batch with `write_queue.get()`, removing
  it from the queue, and starts writing (burst.py lines 51-57).
* `finish`: the writer completes the batch (burst.py lines 59-77). -/
inductive OffStep : OffState → OffState → Prop
  | passWait (s : OffState) :
      s.phase = .atWait → s.queued = 0 →
      OffStep s { s with phase := .capturing }
  | submit (s : OffState) :
      s.phase = .capturing →
      OffStep s { s with queued := s.queued + 1, phase := .atWait }
  | take (s : OffState) :
      0 < s.queued → s.writing = false →
      OffStep s { s with queued := s.queued - 1, writing := true }
  | finish (s : OffState) :
      s.writing = true →
      OffStep s { s with writing := false }

/-- Pipeline states reachable from the start of a burst run. -/
inductive OffReach : OffState → Prop
  | refl : OffReach offInit
  | tail {s t : OffState} : OffReach s → OffStep s t → OffReach t

/-! ### Per-point ordering in burst.py

`perform_burst_capture_ram` (burst.py lines 158-207) issues the Z sweep
G-code *before* the capture loop runs, captures `total_frames` frames, and
only then sends `M400` (the wait for physical completion), returns Z, and
the caller submits the buffer.  Constants from the top of burst.py:
`Z_DROP_TOTAL = 6.0`, `STACK_DURATION = 3.0`, `FRAME_RATE = 10`,
`Z_SPEED_DOWN = (6.0/3.0)*60 + 0.3`, `Z_SPEED_UP = 1800`,
`total_frames = int(STACK_DURATION * FRAME_RATE) = 30`. -/

inductive BEv where
  | gcodeRel
  | sweepCmd (drop speed : ℚ)
  | captureFrame (i : ℕ)
  | waitComplete
  | gcodeAbs
  | returnCmd (z speed : ℚ)
  | submitBatch
deriving Repr, DecidableEq

def zSpeedDownBurst : ℚ := (6 / 3) * 60 + 3 / 10

def burstFrames : ℕ := 30

/-- Event trace of one point's burst capture (burst.py lines 176-207
followed by the `put` in `main` line 266): `G91`, the non-blocking sweep
command, the RAM capture loop, `M400`, `G90`, the Z return, then the
submission of the batch. -/
def burstPointTrace (origZ : ℚ) : List BEv :=
  [BEv.gcodeRel, BEv.sweepCmd 6 zSpeedDownBurst] ++
    (List.range burstFrames).map BEv.captureFrame ++
      [BEv.waitComplete, BEv.gcodeAbs, BEv.returnCmd origZ 1800, BEv.submitBatch]

/-! ### The live-preview generator's cleanup (app.py lines 41-109)

`generate_frames` first tries `camera_lock.acquire(blocking=False)` and
returns at once on failure.  Otherwise it sets `cam = None`, enters a
`try` whose body creates/configures/starts the camera, sets
`streaming_active = True` and loops forever yielding frames; `GeneratorExit`
and every other exception are caught, and the `finally` block stops and
closes the camera when `cam` is not `None`, sets `streaming_active = False`
and releases the lock.  `progress` records how far the body ran before the
exit: `0` = exited before `cam = Picamera2()` completed, `1` = camera
created but flag not yet set, `2` = flag set (the generator reached the
frame loop).  Every exit cause — client disconnect, any exception, a
completed body — runs the same `finally` block. -/

inductive Act where
  | acquireFail
  | acquireOk
  | camCreate
  | setStreamingTrue
  | camStop
  | camClose
  | setStreamingFalse
  | lockRelease
deriving Repr, DecidableEq

/-- Action sequence of one execution of `generate_frames`, as a function
of whether the lock was free at entry and of how far the body progressed
before the exit. -/
def generateFrames (lockFree : Bool) (progress : ℕ) : List Act :=
  if lockFree = false then [Act.acquireFail]
  else
    [Act.acquireOk] ++
      (if 1 ≤ progress then [Act.camCreate] else []) ++
        (if 2 ≤ progress then [Act.setStreamingTrue] else []) ++
          (if 1 ≤ progress then [Act.camStop, Act.camClose] else []) ++
            [Act.setStreamingFalse, Act.lockRelease]

/-! ### Concrete states and configurations used in counterexamples and
witnesses -/

/-- App state in which both the preview generator and the scanner
subprocess have the camera hardware open. -/
def bothHoldState : AppState :=
  { lockHeld := true, streaming := true, scanAlive := true
    previewCam := true, scanCam := true }

/-- App state right after the preview generator acquired `camera_lock` and
before it has set `streaming_active` (app.py lines 49-70). -/
def lockOnlyState : AppState :=
  { lockHeld := true, streaming := false, scanAlive := false
    previewCam := false, scanCam := false }

/-- Pipeline state with one batch sitting in the queue while the writer is
still busy with the previous batch. -/
def offViol : OffState :=
  { queued := 1, writing := true, phase := .atWait }

/-- The end-to-end example configuration of spec section 8:
area from (0,0) to (10,10), step 5 on both axes, Z stack from 5 down to 0,
150 frames at 10 fps. -/
def cfgDemo : ScanCfg :=
  { startX := 0, endX := 10, startY := 0, endY := 10
    stepX := 5, stepY := 5, startZ := 5, endZ := 0, frames := 150, rate := 10 }

/-- The plan `run_scan` computes for `cfgDemo`. -/
def planDemo : Plan :=
  { stepsX := 2, stepsY := 2, sweep := 20 }

/-- Like `cfgDemo` but with a frame count of zero — a non-positive frame
count that spec section 7 says must be rejected. -/
def cfgFrames0 : ScanCfg :=
  { cfgDemo with frames := 0 }

/-- The plan `run_scan` computes for `cfgFrames0`: the non-positive
duration takes the `else 1000` fallback branch. -/
def planFrames0 : Plan :=
  { stepsX := 2, stepsY := 2, sweep := 1000 }

/-- Configuration with a zero X step size. -/
def cfgZeroStep : ScanCfg :=
  { cfgDemo with stepX := 0 }

/-- Configuration with a zero frame rate. -/
def cfgRate0 : ScanCfg :=
  { cfgDemo with rate := 0 }

/-- Traversal position as the spec describes it: the point of flat index
`k` sits in row `k / sX` (row-major over Y); on even rows the columns run
ascending, on odd rows descending (spec sections 4.1 and 8). -/
def specPointAt (sX k : ℕ) : ℕ × ℕ :=
  (k / sX, if (k / sX) % 2 = 0 then k % sX else sX - 1 - k % sX)

end VoroScope

namespace VoroScope

/-! ## Helper lemmas -/

theorem plan_cfgDemo_eq : plan cfgDemo = .ok planDemo := by
  norm_num [plan, stepsOf, zSpeed, cfgDemo, planDemo]

theorem plan_cfgFrames0_eq : plan cfgFrames0 = .ok planFrames0 := by
  norm_num [plan, stepsOf, zSpeed, cfgFrames0, cfgDemo, planFrames0]

theorem appReach_lockOnly : AppReach lockOnlyState :=
  AppReach.tail AppReach.refl (AppStep.previewAcquire appInit rfl)

theorem appReach_bothHold : AppReach bothHoldState := by
  have h1 : AppStep appInit
      { lockHeld := false, streaming := false, scanAlive := true
        previewCam := false, scanCam := false } :=
    AppStep.appStartScan appInit rfl
  have h2 : AppStep
      { lockHeld := false, streaming := false, scanAlive := true
        previewCam := false, scanCam := false }
      { lockHeld := false, streaming := false, scanAlive := true
        previewCam := false, scanCam := true } :=
    AppStep.scanOpenCam _ rfl
  have h3 : AppStep
      { lockHeld := false, streaming := false, scanAlive := true
        previewCam := false, scanCam := true }
      { lockHeld := true, streaming := false, scanAlive := true
        previewCam := false, scanCam := true } :=
    AppStep.previewAcquire _ rfl
  have h4 : AppStep
      { lockHeld := true, streaming := false, scanAlive := true
        previewCam := false, scanCam := true }
      bothHoldState :=
    AppStep.previewOpen _ rfl rfl
  exact AppReach.tail (AppReach.tail (AppReach.tail
    (AppReach.tail AppReach.refl h1) h2) h3) h4

theorem offReach_viol : OffReach offViol := by
  have h1 : OffStep offInit { queued := 0, writing := false, phase := .capturing } :=
    OffStep.passWait _ rfl rfl
  have h2 : OffStep { queued := 0, writing := false, phase := .capturing }
      { queued := 1, writing := false, phase := .atWait } :=
    OffStep.submit _ rfl
  have h3 : OffStep { queued := 1, writing := false, phase := .atWait }
      { queued := 0, writing := true, phase := .atWait } :=
    OffStep.take _ (by norm_num) rfl
  have h4 : OffStep { queued := 0, writing := true, phase := .atWait }
      { queued := 0, writing := true, phase := .capturing } :=
    OffStep.passWait _ rfl rfl
  have h5 : OffStep { queued := 0, writing := true, phase := .capturing }
      offViol :=
    OffStep.submit _ rfl
  exact OffReach.tail (OffReach.tail (OffReach.tail
    (OffReach.tail (OffReach.tail OffReach.refl h1) h2) h3) h4) h5

/-- Strengthened inductive invariant for the burst pipeline: at most one
batch is queued, and while the capture loop runs the queue is empty. -/
theorem off_invariant {s : OffState} (h : OffReach s) :
    s.queued ≤ 1 ∧ (s.phase = .capturing → s.queued = 0) := by
  induction h with
  | refl => exact ⟨Nat.zero_le 1, fun _ => rfl⟩
  | tail _ st ih =>
      cases st with
      | passWait hw hq => exact ⟨ih.1, fun _ => hq⟩
      | submit hp =>
          have hq := ih.2 hp
          refine ⟨by simp [hq], fun hc => ?_⟩
          simp at hc
      | take hq hw =>
          refine ⟨Nat.le_trans (Nat.sub_le _ _) ih.1, fun hc => ?_⟩
          have := ih.2 hc
          omega
      | finish hw => exact ih

/-! ## Claim theorems -/

/-- Claim C1 (code bug witness).  The camera mutual-exclusion invariant is
violated by the code: from the initial app state, `start_scan` accepts (its
guards look only at `streaming_active` and the subprocess, app.py lines
231-235), the scanner subprocess opens the camera without any arbiter
check (scanner.py lines 34-41), and the preview generator then still
acquires `camera_lock` — the lock is free, the subprocess never touches
it — and opens the camera too (app.py lines 47-70), contradicting the
comment above the acquire that a running scanner prevents the stream.
The resulting reachable state has both holders with the camera open. -/
theorem c1_both_paths_hold_camera :
    AppReach bothHoldState ∧ bothHoldState.previewCam = true ∧
      bothHoldState.scanCam = true :=
  ⟨appReach_bothHold, rfl, rfl⟩

/-- Claim C4 counterexample.  A state in which the live-preview path holds
the arbiter (it has just executed `camera_lock.acquire(blocking=False)`,
app.py line 49, and has not yet set `streaming_active`) is reachable, and
in that state `start_scan` answers `started` rather than a busy condition:
the busy check reads the `streaming_active` flag, not the arbiter. -/
theorem c4_counterexample :
    AppReach lockOnlyState ∧ lockOnlyState.lockHeld = true ∧
      startScanResp lockOnlyState = .started :=
  ⟨appReach_lockOnly, rfl, rfl⟩

/-- Claim C4, amended.  `start_scan` accepts exactly when the
`streaming_active` flag is clear and no scan subprocess is alive
(app.py lines 231-241); the flag, not the arbiter, is what the busy
condition tests. -/
theorem c4_start_accepted_iff_flag_clear_and_no_scan (s : AppState) :
    startScanResp s = .started ↔ (s.streaming = false ∧ s.scanAlive = false) := by
  cases hs : s.streaming <;> cases ha : s.scanAlive <;>
    simp [startScanResp, hs, ha]

/-- Claim C5 counterexample.  A pipeline state with a batch in the queue
while the writer is still writing the previous batch is reachable: the
capture loop only spins until `write_queue.qsize()` drops to zero, which
happens when the writer *takes* the previous batch (burst.py lines
164-166, 51), not when it finishes writing it; the subsequent
`write_queue.put` (line 266) never blocks.  Under the claim — submission
blocks until the previous batch has fully drained — this state would be
unreachable. -/
theorem c5_counterexample :
    OffReach offViol ∧ offViol.queued = 1 ∧ offViol.writing = true :=
  ⟨offReach_viol, rfl, rfl⟩

/-- Claim C5, amended.  The backpressure bound itself holds: in every
reachable state of the capture-to-disk pipeline, at most one batch is
queued for writing but not yet taken by the writer worker. -/
theorem c5_backpressure_bound (s : OffState) (h : OffReach s) :
    s.queued ≤ 1 :=
  (off_invariant h).1

/-- Claim C5 witness: the bound evaluated at the concrete reachable state
of the counterexample trace. -/
theorem c5_backpressure_bound_witness : offViol.queued ≤ 1 :=
  c5_backpressure_bound offViol offReach_viol

/-- Claim C10.  Cleanup contract of `generate_frames` (app.py lines
41-109), for every exit cause and every progress point of the body:
when the non-blocking acquire fails the generator returns at once, with
no lock action and no camera action; when the acquire succeeds, the lock
is released exactly once, the camera is stopped and closed exactly as
often as one was created, the streaming flag is reset to false, and the
release is the very last action. -/
theorem c10_generate_frames_cleanup (pr : ℕ) :
    (generateFrames false pr = [Act.acquireFail]) ∧
    ((generateFrames false pr).count Act.lockRelease = 0 ∧
      (generateFrames false pr).count Act.camCreate = 0) ∧
    ((generateFrames true pr).count Act.lockRelease = 1) ∧
    ((generateFrames true pr).count Act.camStop =
      (generateFrames true pr).count Act.camCreate) ∧
    ((generateFrames true pr).count Act.camClose =
      (generateFrames true pr).count Act.camCreate) ∧
    (Act.setStreamingFalse ∈ generateFrames true pr) ∧
    ((generateFrames true pr).getLast? = some Act.lockRelease) := by
  by_cases h2 : 2 ≤ pr
  · have h1 : 1 ≤ pr := le_trans one_le_two h2
    simp [generateFrames, h1, h2, List.count_cons, List.count_append,
      List.getLast?_append]
  · by_cases h1 : 1 ≤ pr <;>
      simp [generateFrames, h1, h2, List.count_cons, List.count_append,
        List.getLast?_append]

/-- Helper: the recording events of a point-list trace are exactly the
grid points of the list, whatever the move-result oracle says. -/
theorem recPoints_pointsTrace (c : ScanCfg) (p : Plan) (o : ℕ → Bool) :
    ∀ (pts : List (ℕ × ℕ)) (k : ℕ), recPoints (pointsTrace c p o pts k) = pts := by
  intro pts
  induction pts with
  | nil => intro k; rfl
  | cons hd rest ih =>
      intro k
      obtain ⟨yi, xi⟩ := hd
      simp [pointsTrace, recPoints, pointTrace, List.filterMap_append] at ih ⊢
      exact ih (k + 4)

/-- Claim C2 counterexample.  Run of `run_scan` on the spec example
configuration with a move-result oracle that fails every `move_to` call:
planning succeeds, the first motion event of the trace is a failed
(logged) move, and recording is nevertheless still started at the final
grid point (row 1, column 0) — the loop never branches on the result of
`move_to` (hardware.py returns `False` on failure, scanner.py ignores the
returned value), so the run is not aborted. -/
theorem c2_counterexample :
    plan cfgDemo = .ok planDemo ∧
    Ev.moveZ 7 1000 false ∈ scanTrace cfgDemo planDemo (fun _ => false) ∧
    Ev.startRec 1 0 ∈ scanTrace cfgDemo planDemo (fun _ => false) := by
  refine ⟨plan_cfgDemo_eq, ?_, ?_⟩ <;>
    norm_num [scanTrace, pointsTrace, pointTrace, gridPoints, zigzagCols,
      cfgDemo, planDemo, xStepSigned, yStepSigned, List.range_succ]

/-- Claim C2, amended.  A failed move is logged inside
`PrinterInterface.move_to` and reported by returning `False`, but
`run_scan` ignores the result: the sequence of grid points whose recording
starts is the full planned grid whatever the move results are (the run is
never aborted by a failed move), and the cleanup events of the `finally`
block occur unconditionally at the end of the trace. -/
theorem c2_failed_move_does_not_abort (c : ScanCfg) (p : Plan) (o : ℕ → Bool) :
    recPoints (scanTrace c p o) = gridPoints p.stepsY.toNat p.stepsX.toNat ∧
    Ev.camStop ∈ scanTrace c p o ∧ Ev.camClose ∈ scanTrace c p o := by
  refine ⟨?_, ?_, ?_⟩
  · simp [scanTrace, recPoints, List.filterMap_append] at *
    have := recPoints_pointsTrace c p o (gridPoints p.stepsY.toNat p.stepsX.toNat) 1
    simpa [recPoints] using this
  · simp [scanTrace]
  · simp [scanTrace]

/-- Claim C3 counterexample.  A configuration with frame count zero — a
non-positive frame count — is not rejected: planning succeeds (the
non-positive duration merely selects the fallback speed 1000,
scanner.py line 77) and the run proceeds to issue motion commands, here
the XY move to the first grid point. -/
theorem c3_counterexample :
    cfgFrames0.frames ≤ 0 ∧
    plan cfgFrames0 = .ok planFrames0 ∧
    Ev.moveXY 0 0 true ∈ scanTrace cfgFrames0 planFrames0 (fun _ => true) := by
  refine ⟨by norm_num [cfgFrames0, cfgDemo], plan_cfgFrames0_eq, ?_⟩
  norm_num [scanTrace, pointsTrace, pointTrace, gridPoints, zigzagCols,
    cfgFrames0, cfgDemo, planFrames0, xStepSigned, yStepSigned, List.range_succ]

/-- Claim C3, amended.  Before any motion command, `run_scan` rejects a
zero step size (explicit `ValueError`, scanner.py lines 62-63) and a zero
frame rate (Python `ZeroDivisionError` at `stack_frames / framerate`,
line 76); but a configuration whose duration `frames / rate` is not
positive — in particular a non-positive frame count, or a negative rate —
is not rejected: planning succeeds with the fallback sweep speed 1000 and
the scan proceeds. -/
theorem c3_validation (c : ScanCfg) :
    ((|c.stepX| = 0 ∨ |c.stepY| = 0) → plan c = .error .zeroStep) ∧
    (¬(|c.stepX| = 0 ∨ |c.stepY| = 0) → c.rate = 0 →
      plan c = .error .zeroDivision) ∧
    (¬(|c.stepX| = 0 ∨ |c.stepY| = 0) → c.rate ≠ 0 → c.frames / c.rate ≤ 0 →
      plan c = .ok { stepsX := stepsOf c.startX c.endX c.stepX
                     stepsY := stepsOf c.startY c.endY c.stepY
                     sweep := 1000 }) := by
  refine ⟨fun h => ?_, fun h hr => ?_, fun h hr hd => ?_⟩
  · simp only [plan]
    rw [if_pos h]
  · simp only [plan]
    rw [if_neg h, if_pos hr]
  · simp only [plan]
    rw [if_neg h, if_neg hr]
    have hnd : ¬ 0 < c.frames / c.rate := not_lt.mpr hd
    simp [zSpeed, hnd]

/-- Claim C3 witness: the amended statement applied to concrete
configurations — a zero X step is rejected, a zero frame rate is rejected,
and the zero-frame-count configuration passes with sweep speed 1000. -/
theorem c3_validation_witness :
    plan cfgZeroStep = .error .zeroStep ∧
    plan cfgRate0 = .error .zeroDivision ∧
    plan cfgFrames0 = .ok { stepsX := stepsOf cfgFrames0.startX cfgFrames0.endX cfgFrames0.stepX
                            stepsY := stepsOf cfgFrames0.startY cfgFrames0.endY cfgFrames0.stepY
                            sweep := 1000 } :=
  ⟨(c3_validation cfgZeroStep).1 (by norm_num [cfgZeroStep, cfgDemo]),
   (c3_validation cfgRate0).2.1 (by norm_num [cfgRate0, cfgDemo]) (by norm_num [cfgRate0, cfgDemo]),
   (c3_validation cfgFrames0).2.2 (by norm_num [cfgFrames0, cfgDemo])
     (by norm_num [cfgFrames0, cfgDemo]) (by norm_num [cfgFrames0, cfgDemo])⟩

/-- Claim C6 counterexample.  The concrete value in the claim is wrong:
for stack_start_z = 5, stack_end_z = 0, frames = 150, framerate = 10 the
code computes `(|0 - 5| / (150 / 10)) * 60 = (5 / 15) * 60 = 20`
controller speed units, not 30. -/
theorem c6_counterexample :
    zSpeed 5 0 150 10 = 20 ∧ (20 : ℚ) ≠ 30 := by
  norm_num [zSpeed]

/-- Claim C6, amended.  The sweep speed follows the claimed formula —
`speed = (|end_z - start_z| / (frames / rate)) * 60` when the duration is
positive, and the fixed fallback 1000 when the duration is not positive —
but the concrete example evaluates to 20, not 30. -/
theorem c6_sweep_speed (s e f r : ℚ) :
    (0 < f / r → zSpeed s e f r = (|e - s| / (f / r)) * 60) ∧
    (f / r ≤ 0 → zSpeed s e f r = 1000) ∧
    zSpeed 5 0 150 10 = 20 := by
  refine ⟨fun h => by simp [zSpeed, h], fun h => ?_, by norm_num [zSpeed]⟩
  have : ¬ 0 < f / r := not_lt.mpr h
  simp [zSpeed, this]

/-- Claim C6 witness: both branches of the amended statement discharged at
concrete inputs — the spec example (positive duration) and a zero frame
count (duration zero, fallback 1000). -/
theorem c6_sweep_speed_witness :
    zSpeed 5 0 150 10 = (|(0 : ℚ) - 5| / ((150 : ℚ) / 10)) * 60 ∧
    zSpeed 5 0 0 10 = 1000 :=
  ⟨(c6_sweep_speed 5 0 150 10).1 (by norm_num),
   (c6_sweep_speed 5 0 0 10).2.1 (by norm_num)⟩

/-- Claim C7 counterexample.  In burst.py the ordering is the other way
around: in the per-point trace of `perform_burst_capture_ram` the
non-blocking Z-sweep command sits at index 1, *before* the first frame
capture at index 2, and the last frame capture (index 31) precedes the
`M400` completion wait at index 32 — so capture neither starts before the
sweep command nor stops after its acknowledgement. -/
theorem c7_counterexample :
    (burstPointTrace 10)[1]? = some (BEv.sweepCmd 6 zSpeedDownBurst) ∧
    (burstPointTrace 10)[2]? = some (BEv.captureFrame 0) ∧
    (burstPointTrace 10)[31]? = some (BEv.captureFrame 29) ∧
    (burstPointTrace 10)[32]? = some BEv.waitComplete :=
  ⟨rfl, rfl, rfl, rfl⟩

/-- Claim C7, amended.  In the integrated scanner (`run_scan`), for every
grid point the claimed ordering does hold: recording starts (index 2 of
the per-point trace) strictly before the Z-sweep move command is issued
(index 3, a `move_to` that embeds `M400` and so blocks until physical
completion), and recording stops (index 4) only after that call returned;
the burst script does not follow this ordering. -/
theorem c7_capture_brackets_sweep (c : ScanCfg) (p : Plan) (o : ℕ → Bool)
    (yi xi k : ℕ) :
    (pointTrace c p o yi xi k)[2]? = some (Ev.startRec yi xi) ∧
    (pointTrace c p o yi xi k)[3]? = some (Ev.moveZ c.endZ p.sweep (o (k + 2))) ∧
    (pointTrace c p o yi xi k)[4]? = some Ev.stopRec :=
  ⟨rfl, rfl, rfl⟩

/-- Helper: reversing an initial segment of the naturals sends index `i`
to `n - 1 - i`. -/
theorem range_reverse_eq_map (n : ℕ) :
    (List.range n).reverse = (List.range n).map (fun i => n - 1 - i) := by
  apply List.ext_getElem
  · simp
  · intro j h1 h2
    simp [List.getElem_reverse, List.getElem_range, List.getElem_map]

/-- Helper: division of an in-row offset. -/
theorem row_offset_div (n j sX : ℕ) (h : j < sX) : (n * sX + j) / sX = n := by
  have hp : 0 < sX := Nat.pos_of_ne_zero (by omega)
  rw [Nat.mul_comm n sX, Nat.mul_add_div hp, Nat.div_eq_of_lt h, Nat.add_zero]

/-- Helper: remainder of an in-row offset. -/
theorem row_offset_mod (n j sX : ℕ) (h : j < sX) : (n * sX + j) % sX = j := by
  rw [Nat.mul_comm n sX, Nat.mul_add_mod, Nat.mod_eq_of_lt h]

/-- Helper: element `i` of the column order of row `yi`. -/
theorem zigzagCols_getElem (yi n i : ℕ) (h : i < n) :
    (zigzagCols yi n)[i]? = some (if yi % 2 = 0 then i else n - 1 - i) := by
  by_cases hp : yi % 2 = 0
  · simp [zigzagCols, hp, List.getElem?_range h]
  · have hi : n - 1 - i < n := by omega
    simp only [zigzagCols, if_neg hp]
    rw [range_reverse_eq_map, List.getElem?_map, List.getElem?_range h]
    simp [hp]

/-- Helper: the zig-zag grid traversal of `run_scan`, as a list, is the
row-major enumeration of `specPointAt`. -/
theorem gridPoints_eq_map (sY sX : ℕ) :
    gridPoints sY sX = (List.range (sY * sX)).map (specPointAt sX) := by
  induction sY with
  | zero => simp [gridPoints]
  | succ n ih =>
      have hrow : ([n].flatMap fun yi => (zigzagCols yi sX).map fun xi => (yi, xi)) =
          (List.map (fun x => n * sX + x) (List.range sX)).map (specPointAt sX) := by
        rw [List.map_map]
        simp only [List.flatMap_cons, List.flatMap_nil, List.append_nil]
        by_cases hp : n % 2 = 0
        · simp only [zigzagCols, if_pos hp]
          apply List.map_congr_left
          intro j hj
          have hjlt : j < sX := List.mem_range.mp hj
          simp [specPointAt, Function.comp, row_offset_div n j sX hjlt,
            row_offset_mod n j sX hjlt, hp]
        · simp only [zigzagCols, if_neg hp]
          rw [range_reverse_eq_map, List.map_map]
          apply List.map_congr_left
          intro j hj
          have hjlt : j < sX := List.mem_range.mp hj
          simp [specPointAt, Function.comp, row_offset_div n j sX hjlt,
            row_offset_mod n j sX hjlt, hp]
      calc gridPoints (n + 1) sX
          = gridPoints n sX ++
              ([n].flatMap fun yi => (zigzagCols yi sX).map fun xi => (yi, xi)) := by
            rw [gridPoints, List.range_succ, List.flatMap_append]; rfl
        _ = (List.range (n * sX)).map (specPointAt sX) ++
              (List.map (fun x => n * sX + x) (List.range sX)).map (specPointAt sX) := by
            rw [ih, hrow]
        _ = (List.range ((n + 1) * sX)).map (specPointAt sX) := by
            rw [show (n + 1) * sX = n * sX + sX by ring, List.range_add, List.map_append]

/-- Claim C9.  Zig-zag traversal order: the point visited at flat index
`k` of the traversal of `run_scan` is the one the spec describes —
row `k / steps_x` (row-major over Y), and within each row the columns run
ascending `0..steps_x-1` on even row indices and descending
`steps_x-1..0` on odd row indices; element-wise, the `i`-th visited column
of row `yi` is `i` on an even row and `steps_x - 1 - i` on an odd row. -/
theorem c9_zigzag_traversal :
    (∀ sY sX k : ℕ, k < sY * sX →
      (gridPoints sY sX)[k]? = some (specPointAt sX k)) ∧
    (∀ yi n i : ℕ, i < n →
      (zigzagCols yi n)[i]? = some (if yi % 2 = 0 then i else n - 1 - i)) := by
  refine ⟨fun sY sX k hk => ?_, zigzagCols_getElem⟩
  rw [gridPoints_eq_map, List.getElem?_map, List.getElem?_range hk]
  rfl

/-- Claim C9 witness: the traversal of the 2 by 2 spec example — flat
index 2 is row 1 (odd), column 1, i.e. the descending order starts at the
last column; and on odd row 1 with three columns the first visited column
is 2. -/
theorem c9_zigzag_traversal_witness :
    (gridPoints 2 2)[2]? = some (specPointAt 2 2) ∧
    (zigzagCols 1 3)[0]? = some (if 1 % 2 = 0 then 0 else 3 - 1 - 0) :=
  ⟨c9_zigzag_traversal.1 2 2 2 (by norm_num),
   c9_zigzag_traversal.2 1 3 0 (by norm_num)⟩

/-- Claim C8.  The planned step count per axis is
`max(1, ceil(|end - start| / |step_size|))` (scanner.py lines 66-67; the
same formula is in `updateScanGrid`, app.py lines 794-802): the plan of
`run_scan` carries exactly these counts; for a non-zero step size the
count is the least number of steps, at least one, whose total travel
covers the axis span; and the two spec examples evaluate to 2 and 3. -/
theorem c8_steps_formula :
    (∀ (c : ScanCfg) (pl : Plan), plan c = .ok pl →
      pl.stepsX = stepsOf c.startX c.endX c.stepX ∧
      pl.stepsY = stepsOf c.startY c.endY c.stepY) ∧
    (∀ a b st : ℚ, st ≠ 0 →
      1 ≤ stepsOf a b st ∧
      |b - a| ≤ (stepsOf a b st : ℚ) * |st| ∧
      ∀ m : ℤ, 1 ≤ m → |b - a| ≤ (m : ℚ) * |st| → stepsOf a b st ≤ m) ∧
    stepsOf 0 10 5 = 2 ∧ stepsOf 0 12 5 = 3 := by
  refine ⟨fun c pl h => ?_, fun a b st hst => ?_, ?_, ?_⟩
  · simp only [plan] at h
    split_ifs at h with h1 h2
    simp only [Except.ok.injEq] at h
    subst h
    exact ⟨rfl, rfl⟩
  · have hpos : (0 : ℚ) < |st| := abs_pos.mpr hst
    refine ⟨le_max_left 1 _, ?_, fun m hm hcov => ?_⟩
    · have h1 : |b - a| / |st| ≤ ((max 1 ⌈|b - a| / |st|⌉ : ℤ) : ℚ) :=
        le_trans (Int.le_ceil _) (by exact_mod_cast le_max_right 1 ⌈|b - a| / |st|⌉)
      exact (div_le_iff₀ hpos).mp h1
    · have h2 : |b - a| / |st| ≤ (m : ℚ) := (div_le_iff₀ hpos).mpr hcov
      exact max_le hm (Int.ceil_le.mpr h2)
  · rw [stepsOf, show (⌈|(10 : ℚ) - 0| / |(5 : ℚ)|⌉ : ℤ) = 2 by
      rw [Int.ceil_eq_iff]; norm_num]
    decide
  · rw [stepsOf, show (⌈|(12 : ℚ) - 0| / |(5 : ℚ)|⌉ : ℤ) = 3 by
      rw [Int.ceil_eq_iff]; norm_num]
    decide

/-- Claim C8 witness: the formula and the covering bounds discharged at
the spec example — the plan for the demo configuration carries the
formula value on X, and for span 10 with step 5 the count 2 is at least 1
and covers the span. -/
theorem c8_steps_formula_witness :
    planDemo.stepsX = stepsOf cfgDemo.startX cfgDemo.endX cfgDemo.stepX ∧
    1 ≤ stepsOf 0 10 5 ∧
    |(10 : ℚ) - 0| ≤ (stepsOf 0 10 5 : ℚ) * |(5 : ℚ)| :=
  ⟨(c8_steps_formula.1 cfgDemo planDemo plan_cfgDemo_eq).1,
   (c8_steps_formula.2.1 0 10 5 (by norm_num)).1,
   (c8_steps_formula.2.1 0 10 5 (by norm_num)).2.1⟩

end VoroScope
